import Mathlib

/-!
Verification development for the YouTube AI Content Workflow repository.

The stage scripts (`download_video.py`, `transcribe_audio.py`,
`summarize_text.py`, `generate_blog.py`) are embedded faithfully as pure
Lean functions: external collaborators (yt-dlp, whisper, transformers,
openai) are parameters returning `Except String _` (an `Except.error`
models a raised Python exception), file-system effects are recorded as
explicit operation traces, and Python `None` returns are `Option.none`.

The orchestrator (`process_video` / `validate_video_url` in
`scripts/process_video.py`) is an unimplemented stub in the source (its
body is `pass`), so it is modelled from the spec where indicated.
-/

namespace YTW

/-! ## Python string and path helpers -/

def splitOnCharAux (c : Char) : List Char → List Char → List (List Char)
  | [], acc => [acc.reverse]
  | x :: xs, acc =>
    if x = c then acc.reverse :: splitOnCharAux c xs []
    else splitOnCharAux c xs (x :: acc)

/-- Split a string at every occurrence of a character. -/
def splitOnChar (c : Char) (s : String) : List (List Char) :=
  splitOnCharAux c s.data []

/-- Python `str.startswith(pre)`. -/
def pyStartsWith (s pre : String) : Bool :=
  pre.data.isPrefixOf s.data

/-- Python `str.strip()`: whitespace removed from both ends. -/
def pyStrip (s : String) : String :=
  ⟨(((s.data.dropWhile Char.isWhitespace).reverse.dropWhile Char.isWhitespace).reverse)⟩

def replaceAux (pat rep : List Char) : Nat → List Char → List Char
  | _, [] => []
  | 0, l => l
  | fuel + 1, x :: xs =>
    if pat.isPrefixOf (x :: xs) && !pat.isEmpty then
      rep ++ replaceAux pat rep fuel ((x :: xs).drop pat.length)
    else x :: replaceAux pat rep fuel xs

/-- Python `str.replace(pat, rep)` for a non-empty pattern: every
non-overlapping occurrence, scanned left to right, is replaced. The fuel
argument (the input length) only bounds the recursion; one unit is spent
per step and every step consumes at least one character. -/
def pyReplace (s pat rep : String) : String :=
  ⟨replaceAux pat.data rep.data s.data.length s.data⟩

/-- The final component of a path, as in Python `Path(p).name`. -/
def pathName (p : String) : String :=
  ⟨(splitOnChar '/' p).getLastD []⟩

/-- Index of the last dot of a string, if any. -/
def lastDotIdx (s : String) : Option Nat :=
  ((List.range s.data.length).filter (fun i => s.data.getD i ' ' == '.')).getLast?

/-- Python `Path(p).stem`: the final path component with its last suffix
removed (a leading dot does not start a suffix). -/
def pathStem (p : String) : String :=
  let n := pathName p
  match lastDotIdx n with
  | some i => if i == 0 then n else ⟨n.data.take i⟩
  | none => n

/-- Python `os.path.join(d, f)` for the relative-path case used by the
scripts: a single separator is inserted when needed. -/
def osJoin (d f : String) : String :=
  if d = "" then f
  else if d.data.getLastD ' ' = '/' then d ++ f
  else d ++ "/" ++ f

/-- Python `str.lower()` (ASCII case mapping, as used by the scripts). -/
def pyLower (s : String) : String := ⟨s.data.map Char.toLower⟩

def pyTitleAux : List Char → Bool → List Char
  | [], _ => []
  | c :: cs, prevAlpha =>
    (if c.isAlpha then (if prevAlpha then c.toLower else c.toUpper) else c)
      :: pyTitleAux cs c.isAlpha

/-- Python `str.title()`: the first letter of every run of letters is
upper-cased, the rest lower-cased. -/
def pyTitle (s : String) : String := ⟨pyTitleAux s.data false⟩

/-- The fractional part of Python `f-string` formatting with `:.2f`, for a
time given in exact hundredths of a second: always exactly two digits. -/
def twoDig (m : Nat) : String :=
  if m < 10 then "0" ++ toString m else toString m

/-- Python `f-string` formatting with `:.2f` of a non-negative time held as
an exact count of hundredths of a second. -/
def format2f (cent : Nat) : String :=
  toString (cent / 100) ++ "." ++ twoDig (cent % 100)

/-! ## File-system model

File writes performed by the scripts are recorded as traces of primitive
operations; `open(p, "w")` truncates (creates) and `f.write(c)` appends to
the open handle. -/

inductive FsOp where
  /-- `open(path, "w")`: create or truncate the file at `path`. -/
  | create (path : String)
  /-- A write of `content` to the (open) file at `path`. -/
  | write (path : String) (content : String)
  /-- `os.rename(src, dst)`. -/
  | rename (src dst : String)
deriving DecidableEq, Repr

def FsOp.isRename : FsOp → Bool
  | .rename _ _ => true
  | _ => false

/-- A file system: a map from paths to file contents. -/
abbrev FS := String → Option String

def emptyFS : FS := fun _ => none

def applyOp (fs : FS) : FsOp → FS
  | .create p => fun q => if q = p then some "" else fs q
  | .write p c => fun q => if q = p then some ((fs p).getD "" ++ c) else fs q
  | .rename src dst =>
      fun q => if q = dst then fs src else if q = src then none else fs q

def applyTrace (fs : FS) (t : List FsOp) : FS := t.foldl applyOp fs

/-- Partially apply an operation, as observed when the process is killed
mid-operation: a write may have emitted only the first `k` characters. -/
def applyPartialOp (fs : FS) (op : FsOp) (k : Nat) : FS :=
  match op with
  | .write p c => applyOp fs (.write p ⟨c.data.take k⟩)
  | op => applyOp fs op

/-- The file system observed when execution of `t` is interrupted during
operation `i`, which has taken partial effect with parameter `k`. -/
def interrupted (fs : FS) (t : List FsOp) (i k : Nat) : FS :=
  match i, t with
  | _, [] => fs
  | 0, op :: _ => applyPartialOp fs op k
  | Nat.succ n, op :: rest => interrupted (applyOp fs op) rest n k

/-- The write sequence the stage scripts actually perform when persisting an
artifact (`transcribe_audio.py` lines 47-48, `generate_blog.py` lines
163-164): open the final path for writing, then write the content. -/
def persistWrite (path content : String) : List FsOp :=
  [FsOp.create path, FsOp.write path content]

/-- Modelled from the spec (section 4.2): the artifact store `lookup`
returns a value only if a file exists at the deterministic path and its
content passes the minimal well-formedness check (non-empty text). No
lookup exists in the source; this is the spec reader against which
persistence is judged. -/
def lookup (fs : FS) (path : String) : Option String :=
  match fs path with
  | some content => if content = "" then none else some content
  | none => none

/-- The write pattern the spec claims for `persist` (section 4.2): write the
content to a temporary path distinct from the final path, then rename the
temporary path onto the final path. Stated from the words of the spec, for
comparison with the write sequence of the source. -/
def isAtomicWriteTrace (t : List FsOp) (finalPath : String) : Bool :=
  match t with
  | [.create t1, .write t2 _, .rename t3 t4] =>
      t1 == t2 && t2 == t3 && t4 == finalPath && t1 != finalPath
  | _ => false

/-! ## `scripts/download_video.py` -/

/-- The yt-dlp collaborator: `extract_info` followed by `prepare_filename`
yields the output filename, `download` fetches the media. An
`Except.error` models a raised exception. -/
structure DlCollab where
  extract_info : String → Except String String
  download : String → Except String Unit

/-- Externally observable actions of `download_video`. -/
inductive DlEvent where
  | mkdirOutputDir (dir : String)
  | extract_info (url : String)
  | download (url : String)
deriving DecidableEq, Repr

/-- `download_video(url, output_dir, audio_only)`: creates the output
directory, then inside `try` calls `extract_info`, `prepare_filename` and
`download`; any exception is caught and `None` is returned. There is no
inspection of the URL (in particular no scheme check) before the
collaborator is invoked. -/
def download_video (c : DlCollab) (url : String)
    (output_dir : String := "./downloads") (_audio_only : Bool := false) :
    Option String × List DlEvent :=
  let ev0 := [DlEvent.mkdirOutputDir output_dir]
  match c.extract_info url with
  | .error _ => (none, ev0 ++ [.extract_info url])
  | .ok filename =>
    match c.download url with
    | .error _ => (none, ev0 ++ [.extract_info url, .download url])
    | .ok _ => (some filename, ev0 ++ [.extract_info url, .download url])

/-! ## `scripts/transcribe_audio.py` -/

/-- One whisper segment; `start` and `end` are times in exact hundredths of
a second (the script renders them with `:.2f`). -/
structure Segment where
  start : Nat
  «end» : Nat
  text : String
deriving DecidableEq, Repr

/-- The whisper transcription result: full text plus ordered segments. -/
structure TranscribeResult where
  text : String
  segments : List Segment
deriving DecidableEq, Repr

/-- A loaded whisper model: transcribes an audio file or raises. -/
abbrev WhisperModel := String → Except String TranscribeResult

/-- The whisper collaborator: `load_model` returns a model or raises. -/
structure WhisperCollab where
  load_model : String → Except String WhisperModel

/-- The line written for one segment:
`[start - end]: text` with both times formatted via `:.2f`. -/
def segmentLine (s : Segment) : String :=
  "[" ++ format2f s.start ++ " - " ++ format2f s.«end» ++ "]: " ++ s.text ++ "\n"

/-- Content of the `_segments.txt` file: one line per segment, in order. -/
def segmentsContent (segs : List Segment) : String :=
  String.join (segs.map segmentLine)

/-- Path of the transcript file written by `transcribe_audio`. -/
def transcriptFilePath (output_dir audio_file : String) : String :=
  osJoin output_dir (pathStem audio_file ++ "_transcript.txt")

/-- Path of the sibling segments file written by `transcribe_audio`. -/
def segmentsFilePath (output_dir audio_file : String) : String :=
  osJoin output_dir (pathStem audio_file ++ "_segments.txt")

/-- `transcribe_audio(audio_file, model_size, output_dir)`. Note the source
calls `whisper.load_model(model_size)` before entering the `try` block, so
an exception raised there propagates to the caller (`Except.error`); an
exception from the `transcribe` call inside the `try` is caught and `None`
is returned. On success the transcript and the segments file are written
and the result is returned. -/
def transcribe_audio (c : WhisperCollab) (audio_file : String)
    (model_size : String := "base") (output_dir : String := "./transcriptions") :
    Except String (Option TranscribeResult × List FsOp) :=
  match c.load_model model_size with
  | .error e => .error e
  | .ok model =>
    match model audio_file with
    | .error _ => .ok (none, [])
    | .ok result =>
      let tf := transcriptFilePath output_dir audio_file
      let sf := segmentsFilePath output_dir audio_file
      .ok (some result,
        persistWrite tf result.text ++ persistWrite sf (segmentsContent result.segments))

/-! ## `scripts/summarize_text.py` -/

/-- The summarization collaborators: a transformers pipeline call taking the
text and `max_length`, and an openai chat call taking the text and
`max_tokens`. An `Except.error` models a raised exception. -/
structure SummCollab where
  summarizer : String → Nat → Except String String
  openai_chat : String → Nat → Except String String

/-- `summarize_with_transformers`: the pipeline call is inside a `try`;
any exception yields `None`. -/
def summarize_with_transformers (c : SummCollab) (text : String)
    (max_length : Nat := 150) : Option String :=
  match c.summarizer text max_length with
  | .ok s => some s
  | .error _ => none

/-- `summarize_with_openai`: the chat call is inside a `try`; any
exception yields `None`. -/
def summarize_with_openai (c : SummCollab) (text : String)
    (max_tokens : Nat := 150) : Option String :=
  match c.openai_chat text max_tokens with
  | .ok s => some s
  | .error _ => none

/-- Path of the summary file written by `summarize_text`. -/
def summaryFilePath (output_dir input_file : String) : String :=
  osJoin output_dir (pathStem input_file ++ "_summary.txt")

/-- `summarize_text(input_file, output_dir, method, max_length)`.
`TRANSFORMERS_AVAILABLE` and `OPENAI_AVAILABLE` are the module-level availability flags; `read_file` models `open(input_file).read()` (read inside a
`try`, so a read failure yields `None`). A falsy summary (`None` or the
empty string) yields `None` with no file written; otherwise the summary is
written to `<output_dir>/<stem>_summary.txt` and returned. -/
def summarize_text (tfAvail oaAvail : Bool) (c : SummCollab)
    (read_file : String → Except String String) (input_file : String)
    (output_dir : String := "./summaries") (method : String := "transformers")
    (max_length : Nat := 150) : Option String × List FsOp :=
  match read_file input_file with
  | .error _ => (none, [])
  | .ok raw =>
    let text := pyStrip raw
    let summary : Option String :=
      if method = "transformers" then
        if tfAvail = false then none
        else summarize_with_transformers c text max_length
      else if method = "openai" then
        if oaAvail = false then none
        else summarize_with_openai c text max_length
      else none
    match summary with
    | none => (none, [])
    | some s =>
      if s = "" then (none, [])
      else (some s, persistWrite (summaryFilePath output_dir input_file) s)

/-! ## `scripts/generate_blog.py` -/

/-- The openai blog collaborator: takes the summary and the title, returns
the generated content or raises. -/
structure BlogCollab where
  openai_blog : String → String → Except String String

/-- Externally observable backend calls of `generate_blog`. -/
inductive BlogEvent where
  | openai_call (summary title : String)
deriving DecidableEq, Repr

/-- `generate_blog_with_openai`: the chat call is inside a `try`; any
exception yields `None`; on success the response is stripped. -/
def generate_blog_with_openai (c : BlogCollab) (summary : String)
    (title : String := "") : Option String :=
  match c.openai_blog summary title with
  | .ok s => some (pyStrip s)
  | .error _ => none

/-- `generate_blog_template(summary, title, video_url)` with `date_str` the
current date: a deterministic markdown document built by string formatting
alone, with the original-video link appended when `video_url` is truthy. -/
def generate_blog_template (summary : String) (title : String := "")
    (video_url : String := "") (date_str : String := "") : String :=
  let title := if title = "" then "Video Summary Blog Post" else title
  let template :=
    "---\ntitle: \"" ++ title ++ "\"\ndate: " ++ date_str ++
    "\ntags: [video-summary, content]\nauthor: AI Content Generator\n---\n\n# " ++
    title ++ "\n\n*Published: " ++ date_str ++ "*\n\n## Overview\n\n" ++
    "This blog post is generated from a video summary, providing key insights and information in an easily digestible format.\n\n## Summary\n\n" ++
    summary ++
    "\n\n## Key Points\n\n- Main topics covered in the video\n- Important insights and takeaways\n- Actionable information for readers\n\n## Conclusion\n\nThis summary provides a comprehensive overview of the video content, making it accessible for those who prefer reading over watching.\n\n---\n\n*This content was automatically generated from video transcription and summarization.*\n"
  if video_url = "" then template
  else template ++ "\n\n**Original Video:** [" ++ video_url ++ "](" ++ video_url ++ ")"

/-- The blog file name computed by `generate_blog` for an effective title:
lower-case, spaces and slashes replaced by underscores, suffix `_blog.md`. -/
def blogFilePath (output_dir title : String) : String :=
  osJoin output_dir (pyReplace (pyReplace (pyLower title) " " "_") "/" "_" ++ "_blog.md")

/-- The effective title used for the blog file name: the given title, or,
when it is empty, the input-file stem with `_summary` removed, underscores
turned to spaces, and title-cased. -/
def blogEffectiveTitle (input_file title : String) : String :=
  if title = "" then pyTitle (pyReplace (pyReplace (pathStem input_file) "_summary" "") "_" " ")
  else title

/-- `generate_blog(input_file, output_dir, title, method, video_url)`.
`OPENAI_AVAILABLE` is the module import flag, `read_file` models the input
read (inside a `try`), `date_str` the current date. Method `"openai"`
requires the flag and calls the collaborator (recorded as an event); every
other method takes the template branch with no backend call. A falsy
result yields `None`; otherwise the content is written to the computed
blog path and returned. -/
def generate_blog (oaAvail : Bool) (c : BlogCollab)
    (read_file : String → Except String String) (date_str : String)
    (input_file : String) (output_dir : String := "./blogs")
    (title : String := "") (method : String := "template")
    (video_url : String := "") : Option String × List FsOp × List BlogEvent :=
  match read_file input_file with
  | .error _ => (none, [], [])
  | .ok raw =>
    let summary := pyStrip raw
    let step : Option String × List BlogEvent :=
      if method = "openai" then
        if oaAvail = false then (none, [])
        else (generate_blog_with_openai c summary title, [.openai_call summary title])
      else (some (generate_blog_template summary title video_url date_str), [])
    match step with
    | (none, events) => (none, [], events)
    | (some content, events) =>
      if content = "" then (none, [], events)
      else
        let blog_file := blogFilePath output_dir (blogEffectiveTitle input_file title)
        (some content, persistWrite blog_file content, events)

/-! ## The pipeline orchestrator

`process_video`, `validate_video_url` and `setup_output_directories` in
`scripts/process_video.py` are unimplemented stubs (their bodies are
`pass`), and no artifact store, manifest or run-context type exists in the
source; the spec itself records that the core is currently unimplemented.
The definitions below are therefore modelled from the spec (sections 3,
4.1, 4.2, 7). -/

/-- Modelled from the spec: the five pipeline stages (section 3). -/
inductive StageKind where
  | Download | Transcribe | Summarize | BlogGen | PodcastGen
deriving DecidableEq, Repr

/-- Modelled from the spec: the fixed dependency order in which the
orchestrator walks the stages. -/
def allStages : List StageKind :=
  [.Download, .Transcribe, .Summarize, .BlogGen, .PodcastGen]

/-- Modelled from the spec: required predecessor stages (section 3) —
Download → Transcribe → Summarize → the siblings BlogGen and PodcastGen. -/
def preds : StageKind → List StageKind
  | .Download => []
  | .Transcribe => [.Download]
  | .Summarize => [.Transcribe]
  | .BlogGen => [.Summarize]
  | .PodcastGen => [.Summarize]

/-- Modelled from the spec: the failure kinds of section 7. -/
inductive FailureKind where
  | InvalidInput | UnsupportedScheme | NetworkError | NotFound
  | ModelLoadError | DecodeError | BackendUnavailable | QuotaExceeded
  | SynthesisError | Timeout | UpstreamFailed
deriving DecidableEq, Repr

/-- Modelled from the spec: stage display names for the persisted layout
`<output_root>/<stage_name>/<source_id>.<ext>` (section 6). -/
def stageName : StageKind → String
  | .Download => "download"
  | .Transcribe => "transcribe"
  | .Summarize => "summarize"
  | .BlogGen => "blog"
  | .PodcastGen => "podcast"

/-- Modelled from the spec: per-stage artifact file extension. -/
def stageExt : StageKind → String
  | .Download => "mp4"
  | .Transcribe => "txt"
  | .Summarize => "txt"
  | .BlogGen => "md"
  | .PodcastGen => "wav"

/-- Modelled from the spec: a deterministic content checksum (the spec only
requires a checksum of the content; any deterministic function of the
content serves the role in this embedding). -/
def contentHash (s : String) : Nat := s.length

/-- Modelled from the spec: the immutable per-invocation run context
(section 3); resource limits are not needed by the claims and are
omitted. -/
structure RunContext where
  source_reference : String
  output_root : String
  stage_backends : StageKind → String

/-- Modelled from the spec: the source identity a run context denotes. -/
def sourceId (ctx : RunContext) : String := ctx.source_reference

/-- Modelled from the spec: the deterministic artifact path
`<output_root>/<stage_name>/<source_id>.<ext>`. -/
def artifactPath (ctx : RunContext) (s : StageKind) : String :=
  ctx.output_root ++ "/" ++ stageName s ++ "/" ++ sourceId ctx ++ "." ++ stageExt s

/-- Modelled from the spec: an artifact record (section 3). -/
structure Artifact where
  stage : StageKind
  path : String
  content_hash : Nat
deriving DecidableEq, Repr

def mkArtifact (ctx : RunContext) (s : StageKind) (content : String) : Artifact :=
  { stage := s, path := artifactPath ctx s, content_hash := contentHash content }

/-- Modelled from the spec: the tagged stage outcome (section 3). -/
inductive StageOutcome where
  | Success (a : Artifact)
  | Skipped (a : Artifact)
  | Failed (kind : FailureKind) (message : String)
  | NotAttempted
deriving DecidableEq, Repr

/-- `Success` or `Skipped`. -/
def StageOutcome.isOk : StageOutcome → Bool
  | .Success _ => true
  | .Skipped _ => true
  | _ => false

/-- The content hash carried by a `Success` or `Skipped` outcome. -/
def StageOutcome.hash? : StageOutcome → Option Nat
  | .Success a => some a.content_hash
  | .Skipped a => some a.content_hash
  | _ => none

/-- Modelled from the spec: the run manifest, an ordered association of
stages to outcomes. -/
abbrev Manifest := List (StageKind × StageOutcome)

/-- First manifest entry for a stage, if any. -/
def mFind (m : Manifest) (s : StageKind) : Option (StageKind × StageOutcome) :=
  List.find? (fun e => e.1 == s) m

/-- Modelled from the spec: every predecessor of `s` has outcome `Success`
or `Skipped` in `m`. -/
def predsOk (m : Manifest) (s : StageKind) : Bool :=
  (preds s).all fun p =>
    match mFind m p with
    | some e => e.2.isOk
    | none => false

/-- A stage executor, as the orchestrator sees it: produces the artifact
content, or fails with a kind and message; an `Except.error` also covers a
raised exception, which the orchestrator turns into manifest data. -/
abbrev Oracle := StageKind → Except (FailureKind × String) String

/-- Modelled from the spec: the artifact store contents, keyed by
(stage, source id). -/
abbrev Store := List ((StageKind × String) × String)

/-- Modelled from the spec (section 4.2): `lookup(stage, source_id)`
returns the stored content only when present and well-formed (non-empty);
a corrupt or empty artifact is treated as absent. -/
def storeLookup (st : Store) (k : StageKind × String) : Option String :=
  match List.find? (fun e => e.1 == k) st with
  | some e => if e.2 = "" then none else some e.2
  | none => none

/-- Modelled from the spec (section 4.2): `persist(stage, source_id,
content)`. -/
def storePersist (st : Store) (k : StageKind × String) (content : String) :
    Store := (k, content) :: st

/-- Modelled from the spec: the final result of a run — an optional fatal
pre-stage failure, the manifest, and the list of stages whose executor was
actually invoked. -/
structure RunResult where
  error : Option FailureKind
  manifest : Manifest
  invoked : List StageKind

/-- Modelled from the spec: `validate_video_url` in
`scripts/process_video.py` is an unimplemented stub whose docstring
requires `True` exactly for valid YouTube video URLs; modelled as the
standard watch-link and short-link forms with a non-empty video id. -/
def validate_video_url (url : String) : Bool :=
  (pyStartsWith url "https://www.youtube.com/watch?v=" && url.length > 32)
    || (pyStartsWith url "http://www.youtube.com/watch?v=" && url.length > 31)
    || (pyStartsWith url "https://youtu.be/" && url.length > 17)

/-- Modelled from the spec (section 4.1, step 2): process the stages in
dependency order. For each stage: if some predecessor is not `Success` or
`Skipped`, record `NotAttempted`; otherwise consult the store — a hit is
recorded as `Skipped`, and on a miss the executor is invoked (recorded in
the invocation list), its failure captured as `Failed` data and its
success persisted and recorded as `Success`. -/
def runStages (oracle : Oracle) (ctx : RunContext) :
    List StageKind → Manifest → Store → List StageKind →
      Manifest × Store × List StageKind
  | [], m, st, inv => (m, st, inv)
  | s :: rest, m, st, inv =>
    if predsOk m s then
      match storeLookup st (s, sourceId ctx) with
      | some content =>
          runStages oracle ctx rest
            (m ++ [(s, .Skipped (mkArtifact ctx s content))]) st inv
      | none =>
        match oracle s with
        | .error (k, msg) =>
            runStages oracle ctx rest
              (m ++ [(s, .Failed k msg)]) st (inv ++ [s])
        | .ok content =>
            runStages oracle ctx rest
              (m ++ [(s, .Success (mkArtifact ctx s content))])
              (storePersist st (s, sourceId ctx) content) (inv ++ [s])
    else runStages oracle ctx rest (m ++ [(s, .NotAttempted)]) st inv

/-- Modelled from the spec (section 4.1): `process_video` validates the
source reference first — an invalid reference aborts with `InvalidInput`
before any stage, with an empty manifest — and otherwise walks all stages
and returns the completed manifest; it is a total function, so stage
failures surface only as manifest data, never as an exception. -/
def process_video (oracle : Oracle) (ctx : RunContext) (st : Store) :
    RunResult × Store :=
  if validate_video_url ctx.source_reference = false then
    ({ error := some .InvalidInput, manifest := [], invoked := [] }, st)
  else
    let r := runStages oracle ctx allStages [] st []
    ({ error := none, manifest := r.1, invoked := r.2.2 }, r.2.1)

/-! ## Auxiliary predicates used by the claim statements -/

/-- A decimal rendering with exactly two digits after the point. -/
def twoDecimalPlaces (s : String) : Prop :=
  ∃ a b, s = a ++ "." ++ b ∧ b.length = 2 ∧ ∀ ch ∈ b.data, ch.isDigit

/-! ## Helper lemmas -/

theorem twoDig_ok (m : Nat) (h : m < 100) :
    (twoDig m).length = 2 ∧ ∀ ch ∈ (twoDig m).data, ch.isDigit := by
  have hall : ∀ m ∈ List.range 100,
      (twoDig m).length = 2 ∧ ∀ ch ∈ (twoDig m).data, ch.isDigit := by decide
  exact hall m (List.mem_range.mpr h)

theorem format2f_twoDecimalPlaces (n : Nat) : twoDecimalPlaces (format2f n) := by
  refine ⟨toString (n / 100), twoDig (n % 100), rfl, ?_, ?_⟩
  · exact (twoDig_ok (n % 100) (Nat.mod_lt n (by decide))).1
  · exact (twoDig_ok (n % 100) (Nat.mod_lt n (by decide))).2

theorem append_ne_empty_right (x y : String) (h : y ≠ "") : x ++ y ≠ "" := by
  intro he
  apply h
  have hd : x.data ++ y.data = [] := by
    have := congrArg String.data he
    rwa [String.data_append] at this
  have h2 := (List.append_eq_nil.mp hd).2
  cases y
  exact congrArg String.mk h2

theorem generate_blog_template_ne_empty (s t u d : String) :
    generate_blog_template s t u d ≠ "" := by
  simp only [generate_blog_template]
  split_ifs <;> exact append_ne_empty_right _ _ (by decide)

/-! ## Claim C3 -/

/-- C3: false as stated. The transcript persist of `transcribe_audio.py`
(and likewise `generate_blog.py`) opens the final path directly and writes
into it — not the claimed temporary-path-then-rename pattern — and a
persist of `"hello"` interrupted after two characters of the write leaves
the half-written, non-empty artifact `"he"` visible to a subsequent lookup
at the final path, which wrongly accepts it. -/
theorem c3_counterexample :
    isAtomicWriteTrace
        (persistWrite (transcriptFilePath "./transcriptions" "video1.wav") "hello")
        (transcriptFilePath "./transcriptions" "video1.wav") = false
    ∧ lookup
        (interrupted emptyFS
          (persistWrite (transcriptFilePath "./transcriptions" "video1.wav") "hello") 1 2)
        (transcriptFilePath "./transcriptions" "video1.wav") = some "he" :=
  ⟨by decide, by decide⟩

/-- C3 amended: the persist operation writes the artifact content directly
to its final path (an open that truncates, then a write), with no temporary
path and no rename; consequently a persist interrupted mid-write leaves the
partially written (non-empty) content visible at the final path, and a
subsequent lookup for that key returns it instead of `None`. -/
theorem c3_persist_direct_write (path content : String) (k : Nat)
    (hk : 0 < k) (hk2 : k ≤ content.data.length) :
    persistWrite path content = [FsOp.create path, FsOp.write path content]
    ∧ ((persistWrite path content).all fun op => !op.isRename) = true
    ∧ lookup (interrupted emptyFS (persistWrite path content) 1 k) path
        = some ⟨content.data.take k⟩ := by
  have hne : (⟨content.data.take k⟩ : String) ≠ "" := by
    intro h
    have hd : content.data.take k = [] := congrArg String.data h
    have hlen := congrArg List.length hd
    rw [List.length_take] at hlen
    simp only [List.length_nil] at hlen
    omega
  refine ⟨rfl, rfl, ?_⟩
  have estep : interrupted emptyFS (persistWrite path content) 1 k
      = applyOp (applyOp emptyFS (.create path)) (.write path ⟨content.data.take k⟩) := rfl
  rw [estep]
  simp only [applyOp, emptyFS, lookup]
  simp [hne]

/-- C3 amended witness at a concrete path, content and interruption point. -/
theorem c3_persist_direct_write_witness :
    persistWrite "./transcriptions/video1_transcript.txt" "hello"
        = [FsOp.create "./transcriptions/video1_transcript.txt",
           FsOp.write "./transcriptions/video1_transcript.txt" "hello"]
    ∧ ((persistWrite "./transcriptions/video1_transcript.txt" "hello").all
        fun op => !op.isRename) = true
    ∧ lookup
        (interrupted emptyFS
          (persistWrite "./transcriptions/video1_transcript.txt" "hello") 1 2)
        "./transcriptions/video1_transcript.txt"
        = some ⟨"hello".data.take 2⟩ :=
  c3_persist_direct_write "./transcriptions/video1_transcript.txt" "hello" 2
    (by decide) (by decide)

/-! ## Claim C6 -/

/-- C6: false as stated. For the unsupported-scheme URL
`ftp://example.com/video`, `download_video` does not reject the URI before
contacting the collaborator: it calls straight into yt-dlp
(`extract_info`), and the failure surfaces as a bare `None`, not as an
`UnsupportedScheme` failure raised before any collaborator call. -/
theorem c6_counterexample :
    DlEvent.extract_info "ftp://example.com/video" ∈
      (download_video
        { extract_info := fun _ => Except.error "generic yt-dlp error",
          download := fun _ => Except.ok () }
        "ftp://example.com/video").2
    ∧ (download_video
        { extract_info := fun _ => Except.error "generic yt-dlp error",
          download := fun _ => Except.ok () }
        "ftp://example.com/video").1 = none :=
  ⟨by decide, rfl⟩

/-- C6 amended: `download_video` performs no scheme validation at all — for
every URL it invokes the yt-dlp collaborator, and when that collaborator
raises (as it does on an unsupported scheme) the exception is caught and
reported as a bare `None` with no failure kind. -/
theorem c6_no_scheme_check (c : DlCollab) (url output_dir : String)
    (audio_only : Bool) (e : String) (h : c.extract_info url = .error e) :
    DlEvent.extract_info url ∈ (download_video c url output_dir audio_only).2
    ∧ (download_video c url output_dir audio_only).1 = none := by
  simp [download_video, h]

/-- C6 amended witness at a concrete failing collaborator and URL. -/
theorem c6_no_scheme_check_witness :
    DlEvent.extract_info "ftp://example.com/video" ∈
      (download_video
        { extract_info := fun _ => Except.error "unsupported scheme",
          download := fun _ => Except.ok () }
        "ftp://example.com/video" "./downloads" false).2
    ∧ (download_video
        { extract_info := fun _ => Except.error "unsupported scheme",
          download := fun _ => Except.ok () }
        "ftp://example.com/video" "./downloads" false).1 = none :=
  c6_no_scheme_check _ _ _ _ _ rfl

/-! ## Claim C7 -/

/-- C7: with method `"template"`, `generate_blog` succeeds for every
readable input whose stripped summary is non-empty, producing exactly the
deterministic template content, with zero openai calls, and entirely
independently of whether the openai backend is installed (the
`OPENAI_AVAILABLE` flag is universally quantified and unused on this
path). -/
theorem c7_template_never_fails (oaAvail : Bool) (c : BlogCollab)
    (rf : String → Except String String)
    (date_str input_file output_dir title video_url raw : String)
    (hread : rf input_file = .ok raw) (_hne : (pyStrip raw) ≠ "") :
    (generate_blog oaAvail c rf date_str input_file output_dir title
        "template" video_url).1
      = some (generate_blog_template (pyStrip raw) title video_url date_str)
    ∧ (generate_blog oaAvail c rf date_str input_file output_dir title
        "template" video_url).2.2 = [] := by
  have hT := generate_blog_template_ne_empty (pyStrip raw) title video_url date_str
  simp [generate_blog, hread, hT]

/-- C7 witness: a concrete input with the openai backend absent. -/
theorem c7_template_never_fails_witness :
    (generate_blog false { openai_blog := fun _ _ => Except.error "not installed" }
        (fun _ => Except.ok " my summary ") "2025-01-01" "video1_summary.txt"
        "./blogs" "" "template" "").1
      = some (generate_blog_template (pyStrip " my summary ") "" "" "2025-01-01")
    ∧ (generate_blog false { openai_blog := fun _ _ => Except.error "not installed" }
        (fun _ => Except.ok " my summary ") "2025-01-01" "video1_summary.txt"
        "./blogs" "" "template" "").2.2 = [] :=
  c7_template_never_fails false _ _ "2025-01-01" "video1_summary.txt" "./blogs"
    "" "" " my summary " rfl (by decide)

/-! ## Claim C8 -/

/-- C8: false as stated. The blog artifact path depends on the
user-supplied title — the same summary file persisted under two different
titles lands at two different paths — so the path is not derived only from
the source identifier and the stage name; and the transcript path is the
flat `<dir>/<stem>_transcript.txt`, not the claimed
`<output_root>/<stage_name>/<source_id>.<ext>` layout. -/
theorem c8_counterexample :
    ((generate_blog true { openai_blog := fun _ _ => Except.error "unavailable" }
        (fun _ => Except.ok "sum") "2025-01-01" "video1_summary.txt" "./blogs"
        "My Talk" "template" "").2.1.head?
      = some (FsOp.create "./blogs/my_talk_blog.md"))
    ∧ ((generate_blog true { openai_blog := fun _ _ => Except.error "unavailable" }
        (fun _ => Except.ok "sum") "2025-01-01" "video1_summary.txt" "./blogs"
        "Other Talk" "template" "").2.1.head?
      = some (FsOp.create "./blogs/other_talk_blog.md"))
    ∧ ("./blogs/my_talk_blog.md" : String) ≠ "./blogs/other_talk_blog.md"
    ∧ transcriptFilePath "./transcriptions" "video1.wav"
        = "./transcriptions/video1_transcript.txt"
    ∧ ("./transcriptions/video1_transcript.txt" : String)
        ≠ "./transcriptions/transcribe/video1.txt" :=
  ⟨by decide, by decide, by decide, by decide, by decide⟩

/-- C8 amended: each stage writes to a deterministic flat path —
`<output_dir>/<input stem>_transcript.txt` and
`<output_dir>/<input stem>_segments.txt` for transcription,
`<output_dir>/<input stem>_summary.txt` for summarization, and
`<output_dir>/<sanitized title>_blog.md` for blog generation — derived
from the output directory, the input-file stem and, for the blog, the
title; repeated runs with the same arguments resolve to the same paths. -/
theorem c8_flat_deterministic_paths
    (wc : WhisperCollab) (f : WhisperModel) (audio ms odir : String)
    (r : TranscribeResult) (hw1 : wc.load_model ms = .ok f)
    (hw2 : f audio = .ok r)
    (sc : SummCollab) (srf : String → Except String String)
    (sfile sdir sraw s : String) (hs1 : srf sfile = .ok sraw)
    (hs2 : sc.summarizer (pyStrip sraw) 150 = .ok s) (hs0 : s ≠ "")
    (bc : BlogCollab) (brf : String → Except String String)
    (bfile bdir t d braw : String) (hb1 : brf bfile = .ok braw)
    (ht : t ≠ "") :
    transcribe_audio wc audio ms odir
      = .ok (some r,
          persistWrite (osJoin odir (pathStem audio ++ "_transcript.txt")) r.text
            ++ persistWrite (osJoin odir (pathStem audio ++ "_segments.txt"))
                (segmentsContent r.segments))
    ∧ summarize_text true true sc srf sfile sdir "transformers" 150
      = (some s, persistWrite (osJoin sdir (pathStem sfile ++ "_summary.txt")) s)
    ∧ (generate_blog true bc brf d bfile bdir t "template" "").2.1
      = persistWrite
          (osJoin bdir (pyReplace (pyReplace (pyLower t) " " "_") "/" "_" ++ "_blog.md"))
          (generate_blog_template (pyStrip braw) t "" d) := by
  have hT := generate_blog_template_ne_empty (pyStrip braw) t "" d
  refine ⟨?_, ?_, ?_⟩
  · simp [transcribe_audio, hw1, hw2, transcriptFilePath, segmentsFilePath]
  · simp [summarize_text, hs1, hs2, hs0, summarize_with_transformers, summaryFilePath]
  · simp [generate_blog, hb1, hT, blogFilePath, blogEffectiveTitle, ht]

/-- C8 amended witness at concrete collaborators and inputs. -/
theorem c8_flat_deterministic_paths_witness :
    transcribe_audio
        { load_model := fun _ =>
            Except.ok (fun _ => Except.ok ⟨"hi", [⟨0, 150, " hi"⟩]⟩) }
        "video1.wav" "base" "./transcriptions"
      = .ok (some ⟨"hi", [⟨0, 150, " hi"⟩]⟩,
          persistWrite (osJoin "./transcriptions" (pathStem "video1.wav" ++ "_transcript.txt")) "hi"
            ++ persistWrite (osJoin "./transcriptions" (pathStem "video1.wav" ++ "_segments.txt"))
                (segmentsContent [⟨0, 150, " hi"⟩]))
    ∧ summarize_text true true
        { summarizer := fun _ _ => Except.ok "short", openai_chat := fun _ _ => Except.error "x" }
        (fun _ => Except.ok "long text") "video1_transcript.txt" "./summaries" "transformers" 150
      = (some "short",
          persistWrite (osJoin "./summaries" (pathStem "video1_transcript.txt" ++ "_summary.txt")) "short")
    ∧ (generate_blog true { openai_blog := fun _ _ => Except.error "x" }
        (fun _ => Except.ok "sum") "2025-01-01" "video1_summary.txt" "./blogs"
        "My Talk" "template" "").2.1
      = persistWrite
          (osJoin "./blogs" (pyReplace (pyReplace (pyLower "My Talk") " " "_") "/" "_" ++ "_blog.md"))
          (generate_blog_template (pyStrip "sum") "My Talk" "" "2025-01-01") :=
  c8_flat_deterministic_paths _ _ "video1.wav" "base" "./transcriptions" _ rfl rfl
    _ _ "video1_transcript.txt" "./summaries" "long text" "short" rfl rfl (by decide)
    _ _ "video1_summary.txt" "./blogs" "My Talk" "2025-01-01" "sum" rfl (by decide)

/-! ## Claim C9 -/

/-- C9: on every successful transcription the segment data is written to
the sibling file `<stem>_segments.txt` in the same output directory, whose
content is one line per segment in order, each line of the form
`[start - end]: text` with both timestamps rendered with exactly two
decimal places. -/
theorem c9_segments_format (c : WhisperCollab) (f : WhisperModel)
    (audio ms odir : String) (r : TranscribeResult)
    (h1 : c.load_model ms = .ok f) (h2 : f audio = .ok r) :
    transcribe_audio c audio ms odir
      = .ok (some r,
          persistWrite (transcriptFilePath odir audio) r.text
            ++ persistWrite (segmentsFilePath odir audio) (segmentsContent r.segments))
    ∧ segmentsFilePath odir audio = osJoin odir (pathStem audio ++ "_segments.txt")
    ∧ segmentsContent r.segments
        = String.join (r.segments.map fun sg =>
            "[" ++ format2f sg.start ++ " - " ++ format2f sg.«end» ++ "]: " ++ sg.text ++ "\n")
    ∧ ∀ sg ∈ r.segments,
        twoDecimalPlaces (format2f sg.start) ∧ twoDecimalPlaces (format2f sg.«end») := by
  refine ⟨?_, rfl, rfl,
    fun sg _ => ⟨format2f_twoDecimalPlaces _, format2f_twoDecimalPlaces _⟩⟩
  simp [transcribe_audio, h1, h2]

/-- C9 witness: a concrete transcription with one segment, showing the
written segment line for times 0.00 and 1.50 seconds. -/
theorem c9_segments_format_witness :
    transcribe_audio
        { load_model := fun _ =>
            Except.ok (fun _ => Except.ok ⟨"hello world", [⟨0, 150, " hello world"⟩]⟩) }
        "video1.wav" "base" "./transcriptions"
      = .ok (some ⟨"hello world", [⟨0, 150, " hello world"⟩]⟩,
          persistWrite (transcriptFilePath "./transcriptions" "video1.wav") "hello world"
            ++ persistWrite (segmentsFilePath "./transcriptions" "video1.wav")
                (segmentsContent [⟨0, 150, " hello world"⟩]))
    ∧ segmentsContent [⟨0, 150, " hello world"⟩] = "[0.00 - 1.50]:  hello world\n" :=
  ⟨(c9_segments_format _ _ "video1.wav" "base" "./transcriptions" _ rfl rfl).1, by decide⟩

/-! ## Claim C10 -/

/-- C10: false as stated. In `transcribe_audio.py` the collaborator call
`whisper.load_model(model_size)` happens before the `try` block begins, so
an exception raised by it propagates to the caller instead of being caught
and converted to a `None` return. -/
theorem c10_counterexample :
    transcribe_audio { load_model := fun _ => Except.error "model load failed" }
      "video1.wav" "base" "./transcriptions" = Except.error "model load failed" := rfl

/-- C10 amended: `download_video`, `summarize_text` and `generate_blog`
catch collaborator exceptions and return `None`, and `transcribe_audio`
does so for an exception raised by the `transcribe` call — but an exception
raised by `whisper.load_model`, which is invoked before the `try` block,
propagates to the caller. -/
theorem c10_exception_handling
    (dc : DlCollab) (url e1 : String) (h1 : dc.extract_info url = .error e1)
    (sc : SummCollab) (srf : String → Except String String)
    (sfile sraw e2 : String) (hs1 : srf sfile = .ok sraw)
    (hs2 : sc.summarizer (pyStrip sraw) 150 = .error e2)
    (bc : BlogCollab) (brf : String → Except String String)
    (bfile braw d e3 : String) (hb1 : brf bfile = .ok braw)
    (hb2 : bc.openai_blog (pyStrip braw) "" = .error e3)
    (wc : WhisperCollab) (f : WhisperModel) (audio ms odir e4 e5 : String)
    (hw1 : wc.load_model ms = .ok f) (hw2 : f audio = .error e4)
    (wc2 : WhisperCollab) (hw3 : wc2.load_model ms = .error e5) :
    (download_video dc url).1 = none
    ∧ (summarize_text true true sc srf sfile "./summaries" "transformers" 150).1 = none
    ∧ (generate_blog true bc brf d bfile "./blogs" "" "openai" "").1 = none
    ∧ transcribe_audio wc audio ms odir = .ok (none, [])
    ∧ transcribe_audio wc2 audio ms odir = .error e5 := by
  refine ⟨?_, ?_, ?_, ?_, ?_⟩
  · simp [download_video, h1]
  · simp [summarize_text, hs1, hs2, summarize_with_transformers]
  · simp [generate_blog, hb1, hb2, generate_blog_with_openai]
  · simp [transcribe_audio, hw1, hw2]
  · simp [transcribe_audio, hw3]

/-- C10 amended witness at concrete failing collaborators. -/
theorem c10_exception_handling_witness :
    (download_video
        { extract_info := fun _ => Except.error "net down",
          download := fun _ => Except.ok () } "https://youtu.be/abc").1 = none
    ∧ (summarize_text true true
        { summarizer := fun _ _ => Except.error "oom",
          openai_chat := fun _ _ => Except.error "x" }
        (fun _ => Except.ok "text") "t.txt" "./summaries" "transformers" 150).1 = none
    ∧ (generate_blog true { openai_blog := fun _ _ => Except.error "quota" }
        (fun _ => Except.ok "sum") "2025-01-01" "s.txt" "./blogs" "" "openai" "").1 = none
    ∧ transcribe_audio
        { load_model := fun _ => Except.ok (fun _ => Except.error "decode error") }
        "a.wav" "base" "./t" = .ok (none, [])
    ∧ transcribe_audio { load_model := fun _ => Except.error "no such model" }
        "a.wav" "base" "./t" = .error "no such model" :=
  c10_exception_handling _ "https://youtu.be/abc" "net down" rfl
    _ _ "t.txt" "text" "oom" rfl rfl
    _ _ "s.txt" "sum" "2025-01-01" "quota" rfl rfl
    _ _ "a.wav" "base" "./t" "decode error" "no such model" rfl rfl
    _ rfl

/-! ## Orchestrator lemmas -/

theorem mFind_append_of_some {m : Manifest} {s : StageKind}
    {e : StageKind × StageOutcome} (m' : Manifest) (h : mFind m s = some e) :
    mFind (m ++ m') s = some e := by
  unfold mFind at h ⊢
  rw [List.find?_append, h]
  rfl

theorem predsOk_append {m : Manifest} {s : StageKind} (m' : Manifest)
    (h : predsOk m s = true) : predsOk (m ++ m') s = true := by
  unfold predsOk at h ⊢
  rw [List.all_eq_true] at h ⊢
  intro p hp
  have hx := h p hp
  cases hf : mFind m p with
  | none => rw [hf] at hx; simp at hx
  | some e =>
    rw [mFind_append_of_some m' hf]
    rw [hf] at hx
    exact hx

theorem manifest_inv_extend {m : Manifest} {s₁ : StageKind} {x : StageOutcome}
    (hm : ∀ s o, (s, o) ∈ m → o ≠ .NotAttempted → predsOk m s = true)
    (hx : x ≠ .NotAttempted → predsOk m s₁ = true) :
    ∀ s o, (s, o) ∈ m ++ [(s₁, x)] → o ≠ .NotAttempted →
      predsOk (m ++ [(s₁, x)]) s = true := by
  intro s o hmem hno
  rcases List.mem_append.mp hmem with hL | hR
  · exact predsOk_append _ (hm s o hL hno)
  · have h' := List.mem_singleton.mp hR
    have hs : s = s₁ := congrArg Prod.fst h'
    have ho : o = x := congrArg Prod.snd h'
    subst hs
    exact predsOk_append _ (hx (ho ▸ hno))

theorem invoked_inv_extend {m : Manifest} {s₁ : StageKind} {x : StageOutcome}
    {inv add : List StageKind}
    (hi : ∀ s, s ∈ inv → predsOk m s = true)
    (hadd : ∀ s, s ∈ add → predsOk m s = true) :
    ∀ s, s ∈ inv ++ add → predsOk (m ++ [(s₁, x)]) s = true := by
  intro s hs
  rcases List.mem_append.mp hs with hL | hR
  · exact predsOk_append _ (hi s hL)
  · exact predsOk_append _ (hadd s hR)

/-- Invariant of the modelled orchestrator walk: in the final manifest,
every entry whose outcome is not `NotAttempted` was recorded with all its
predecessors `Success` or `Skipped` (still visible in the final manifest),
and likewise every stage whose executor was invoked. -/
theorem runStages_gating (oracle : Oracle) (ctx : RunContext) :
    ∀ (stages : List StageKind) (m : Manifest) (st : Store) (inv : List StageKind),
      (∀ s o, (s, o) ∈ m → o ≠ .NotAttempted → predsOk m s = true) →
      (∀ s, s ∈ inv → predsOk m s = true) →
      (∀ s o, (s, o) ∈ (runStages oracle ctx stages m st inv).1 →
          o ≠ .NotAttempted →
          predsOk (runStages oracle ctx stages m st inv).1 s = true)
      ∧ ∀ s, s ∈ (runStages oracle ctx stages m st inv).2.2 →
          predsOk (runStages oracle ctx stages m st inv).1 s = true := by
  intro stages
  induction stages with
  | nil =>
    intro m st inv hm hi
    exact ⟨hm, hi⟩
  | cons s₁ rest ih =>
    intro m st inv hm hi
    simp only [runStages]
    by_cases hp : predsOk m s₁ = true
    · rw [if_pos hp]
      cases hl : storeLookup st (s₁, sourceId ctx) with
      | some content =>
        exact ih _ _ _ (manifest_inv_extend hm fun _ => hp)
          (fun s hs => predsOk_append _ (hi s hs))
      | none =>
        cases ho : oracle s₁ with
        | error p =>
          obtain ⟨k, msg⟩ := p
          exact ih _ _ _ (manifest_inv_extend hm fun _ => hp)
            (invoked_inv_extend hi
              (fun s hs => (List.mem_singleton.mp hs) ▸ hp))
        | ok content =>
          exact ih _ _ _ (manifest_inv_extend hm fun _ => hp)
            (invoked_inv_extend hi
              (fun s hs => (List.mem_singleton.mp hs) ▸ hp))
    · rw [if_neg hp]
      exact ih _ _ _ (manifest_inv_extend hm fun hno => absurd rfl hno)
        (fun s hs => predsOk_append _ (hi s hs))

/-- The modelled orchestrator records exactly one outcome per remaining
stage, in order. -/
theorem runStages_keys (oracle : Oracle) (ctx : RunContext) :
    ∀ (stages : List StageKind) (m : Manifest) (st : Store) (inv : List StageKind),
      ((runStages oracle ctx stages m st inv).1).map Prod.fst
        = m.map Prod.fst ++ stages := by
  intro stages
  induction stages with
  | nil => intro m st inv; simp [runStages]
  | cons s₁ rest ih =>
    intro m st inv
    simp only [runStages]
    by_cases hp : predsOk m s₁ = true
    · rw [if_pos hp]
      cases hl : storeLookup st (s₁, sourceId ctx) with
      | some content => rw [ih]; simp
      | none =>
        cases ho : oracle s₁ with
        | error p => obtain ⟨k, msg⟩ := p; rw [ih]; simp
        | ok content => rw [ih]; simp
    · rw [if_neg hp]; rw [ih]; simp

/-- Every executor failure of an invoked stage is recorded as `Failed`
data in the final manifest. -/
theorem runStages_failed_recorded (oracle : Oracle) (ctx : RunContext) :
    ∀ (stages : List StageKind) (m : Manifest) (st : Store) (inv : List StageKind),
      (∀ s k msg, s ∈ inv → oracle s = .error (k, msg) →
        (s, StageOutcome.Failed k msg) ∈ m) →
      ∀ s k msg, s ∈ (runStages oracle ctx stages m st inv).2.2 →
        oracle s = .error (k, msg) →
        (s, StageOutcome.Failed k msg) ∈ (runStages oracle ctx stages m st inv).1 := by
  intro stages
  induction stages with
  | nil => intro m st inv hbase; exact hbase
  | cons s₁ rest ih =>
    intro m st inv hbase
    simp only [runStages]
    by_cases hp : predsOk m s₁ = true
    · rw [if_pos hp]
      cases hl : storeLookup st (s₁, sourceId ctx) with
      | some content =>
        exact ih _ _ _
          (fun s k msg hs ho => List.mem_append_left _ (hbase s k msg hs ho))
      | none =>
        cases ho : oracle s₁ with
        | error p =>
          obtain ⟨k₀, msg₀⟩ := p
          refine ih _ _ _ ?_
          intro s k msg hs hosk
          rcases List.mem_append.mp hs with hL | hR
          · exact List.mem_append_left _ (hbase s k msg hL hosk)
          · have hs1 : s = s₁ := List.mem_singleton.mp hR
            subst hs1
            rw [ho] at hosk
            simp only [Except.error.injEq, Prod.mk.injEq] at hosk
            obtain ⟨hk, hmsg⟩ := hosk
            subst hk; subst hmsg
            exact List.mem_append_right _ (by simp)
        | ok content =>
          refine ih _ _ _ ?_
          intro s k msg hs hosk
          rcases List.mem_append.mp hs with hL | hR
          · exact List.mem_append_left _ (hbase s k msg hL hosk)
          · have hs1 : s = s₁ := List.mem_singleton.mp hR
            subst hs1
            rw [ho] at hosk
            cases hosk
    · rw [if_neg hp]
      exact ih _ _ _
        (fun s k msg hs ho => List.mem_append_left _ (hbase s k msg hs ho))

/-! ## Claim C1 -/

/-- C1: for every executor oracle — including oracles every one of whose
executors raises — a run over a valid source reference returns a completed
manifest covering all five stages in order, with no fatal error, and every
failure of an invoked executor is captured as a `Failed` entry in the
manifest rather than surfacing as an exception (the run itself is a total
function). Proved over the orchestrator modelled from the spec, since
`process_video` is an unimplemented stub in the source. -/
theorem c1_never_raises (oracle : Oracle) (ctx : RunContext) (st : Store)
    (h : validate_video_url ctx.source_reference = true) :
    (process_video oracle ctx st).1.error = none
    ∧ (process_video oracle ctx st).1.manifest.map Prod.fst = allStages
    ∧ ∀ s k msg, s ∈ (process_video oracle ctx st).1.invoked →
        oracle s = .error (k, msg) →
        (s, StageOutcome.Failed k msg) ∈ (process_video oracle ctx st).1.manifest := by
  have hne : ¬(validate_video_url ctx.source_reference = false) := by simp [h]
  unfold process_video
  rw [if_neg hne]
  refine ⟨rfl, ?_, ?_⟩
  · simpa using runStages_keys oracle ctx allStages [] st []
  · intro s k msg hs ho
    exact runStages_failed_recorded oracle ctx allStages [] st [] (by simp) s k msg hs ho

/-- C1 witness: a valid URL with an oracle whose every executor raises; the
run still returns the full five-stage manifest with the Download failure
recorded as data. -/
theorem c1_never_raises_witness :
    ((process_video (fun _ => Except.error (FailureKind.NetworkError, "connection refused"))
        { source_reference := "https://www.youtube.com/watch?v=abc123",
          output_root := "./out", stage_backends := fun _ => "local" } []).1.error = none)
    ∧ ((process_video (fun _ => Except.error (FailureKind.NetworkError, "connection refused"))
        { source_reference := "https://www.youtube.com/watch?v=abc123",
          output_root := "./out", stage_backends := fun _ => "local" } []).1.manifest.map
          Prod.fst = allStages)
    ∧ ((StageKind.Download, StageOutcome.Failed FailureKind.NetworkError "connection refused")
        ∈ (process_video (fun _ => Except.error (FailureKind.NetworkError, "connection refused"))
            { source_reference := "https://www.youtube.com/watch?v=abc123",
              output_root := "./out", stage_backends := fun _ => "local" } []).1.manifest) := by
  have h := c1_never_raises
    (fun _ => Except.error (FailureKind.NetworkError, "connection refused"))
    { source_reference := "https://www.youtube.com/watch?v=abc123",
      output_root := "./out", stage_backends := fun _ => "local" } [] (by decide)
  exact ⟨h.1, h.2.1, h.2.2 .Download .NetworkError "connection refused" (by decide) rfl⟩

/-! ## Claim C2 -/

/-- C2: in every manifest produced by a run over a valid reference, a
stage with outcome `Success` or `Skipped` has every predecessor `Success`
or `Skipped`; a stage some predecessor of which is not `Success` or
`Skipped` has outcome `NotAttempted`; and every stage whose executor was
invoked had all predecessors `Success` or `Skipped` — so an upstream
failure yields `NotAttempted` downstream with zero executor invocations.
Proved over the orchestrator modelled from the spec, since `process_video`
is an unimplemented stub in the source. -/
theorem c2_dependency_invariant (oracle : Oracle) (ctx : RunContext) (st : Store)
    (h : validate_video_url ctx.source_reference = true) :
    (∀ s o, (s, o) ∈ (process_video oracle ctx st).1.manifest →
        (o.isOk = true → predsOk (process_video oracle ctx st).1.manifest s = true)
        ∧ (predsOk (process_video oracle ctx st).1.manifest s = false →
            o = .NotAttempted))
    ∧ ∀ s, s ∈ (process_video oracle ctx st).1.invoked →
        predsOk (process_video oracle ctx st).1.manifest s = true := by
  have hg := runStages_gating oracle ctx allStages [] st [] (by simp) (by simp)
  have hne : ¬(validate_video_url ctx.source_reference = false) := by simp [h]
  unfold process_video
  rw [if_neg hne]
  refine ⟨?_, hg.2⟩
  intro s o hmem
  constructor
  · intro hok
    refine hg.1 s o hmem ?_
    intro hna
    rw [hna] at hok
    exact absurd hok (by simp [StageOutcome.isOk])
  · intro hpf
    by_contra hno
    have hT := hg.1 s o hmem hno
    rw [hT] at hpf
    cases hpf

/-- C2 witness: a forced Transcribe failure on a fresh store — Download and
Transcribe are the only invoked executors (so Summarize, BlogGen and
PodcastGen have zero invocations), the three downstream stages are
`NotAttempted`, and instantiating the invariant shows the invoked
Transcribe stage had its predecessor `Success` or `Skipped`. -/
theorem c2_dependency_invariant_witness :
    ((process_video
        (fun s => if s = .Transcribe then .error (.DecodeError, "forced") else .ok "content")
        { source_reference := "https://www.youtube.com/watch?v=abc123",
          output_root := "./out", stage_backends := fun _ => "local" } []).1.invoked
      = [StageKind.Download, StageKind.Transcribe])
    ∧ (mFind (process_video
        (fun s => if s = .Transcribe then .error (.DecodeError, "forced") else .ok "content")
        { source_reference := "https://www.youtube.com/watch?v=abc123",
          output_root := "./out", stage_backends := fun _ => "local" } []).1.manifest
        .Summarize = some (.Summarize, .NotAttempted))
    ∧ (mFind (process_video
        (fun s => if s = .Transcribe then .error (.DecodeError, "forced") else .ok "content")
        { source_reference := "https://www.youtube.com/watch?v=abc123",
          output_root := "./out", stage_backends := fun _ => "local" } []).1.manifest
        .BlogGen = some (.BlogGen, .NotAttempted))
    ∧ (mFind (process_video
        (fun s => if s = .Transcribe then .error (.DecodeError, "forced") else .ok "content")
        { source_reference := "https://www.youtube.com/watch?v=abc123",
          output_root := "./out", stage_backends := fun _ => "local" } []).1.manifest
        .PodcastGen = some (.PodcastGen, .NotAttempted))
    ∧ predsOk (process_video
        (fun s => if s = .Transcribe then .error (.DecodeError, "forced") else .ok "content")
        { source_reference := "https://www.youtube.com/watch?v=abc123",
          output_root := "./out", stage_backends := fun _ => "local" } []).1.manifest
        StageKind.Transcribe = true := by
  refine ⟨by decide, by decide, by decide, by decide, ?_⟩
  exact (c2_dependency_invariant
    (fun s => if s = .Transcribe then .error (.DecodeError, "forced") else .ok "content")
    { source_reference := "https://www.youtube.com/watch?v=abc123",
      output_root := "./out", stage_backends := fun _ => "local" } [] (by decide)).2
    .Transcribe (by decide)

/-! ## Claim C4 -/

/-- C4: running the pipeline twice with an identical run context against
the same source is idempotent whenever the executors succeed with
well-formed (non-empty) content: every outcome of the second run is
`Skipped`, the artifact store is unchanged by the second run, and the
per-stage artifact content hashes of the two manifests coincide. Proved
over the orchestrator modelled from the spec, since `process_video` is an
unimplemented stub in the source. -/
theorem c4_idempotent (oracle : Oracle) (ctx : RunContext)
    (hval : validate_video_url ctx.source_reference = true)
    (hok : ∀ s, ∃ c, oracle s = .ok c ∧ c ≠ "") :
    (∀ e ∈ (process_video oracle ctx (process_video oracle ctx []).2).1.manifest,
        ∃ a, e.2 = StageOutcome.Skipped a)
    ∧ (process_video oracle ctx (process_video oracle ctx []).2).2
        = (process_video oracle ctx []).2
    ∧ ((process_video oracle ctx (process_video oracle ctx []).2).1.manifest.map
          fun e => (e.1, e.2.hash?))
        = ((process_video oracle ctx []).1.manifest.map fun e => (e.1, e.2.hash?)) := by
  obtain ⟨cD, hD, hD'⟩ := hok .Download
  obtain ⟨cT, hT, hT'⟩ := hok .Transcribe
  obtain ⟨cS, hS, hS'⟩ := hok .Summarize
  obtain ⟨cB, hB, hB'⟩ := hok .BlogGen
  obtain ⟨cP, hP, hP'⟩ := hok .PodcastGen
  simp [process_video, hval, runStages, allStages, predsOk, preds, storeLookup,
    storePersist, mFind, sourceId, StageOutcome.isOk, StageOutcome.hash?,
    hD, hT, hS, hB, hP, hD', hT', hS', hB', hP']

/-- C4 witness: a concrete all-succeeding oracle and context. -/
theorem c4_idempotent_witness :
    (∀ e ∈ (process_video (fun _ => Except.ok "content")
        { source_reference := "https://www.youtube.com/watch?v=abc123",
          output_root := "./out", stage_backends := fun _ => "local" }
        (process_video (fun _ => Except.ok "content")
          { source_reference := "https://www.youtube.com/watch?v=abc123",
            output_root := "./out", stage_backends := fun _ => "local" } []).2).1.manifest,
        ∃ a, e.2 = StageOutcome.Skipped a)
    ∧ (process_video (fun _ => Except.ok "content")
        { source_reference := "https://www.youtube.com/watch?v=abc123",
          output_root := "./out", stage_backends := fun _ => "local" }
        (process_video (fun _ => Except.ok "content")
          { source_reference := "https://www.youtube.com/watch?v=abc123",
            output_root := "./out", stage_backends := fun _ => "local" } []).2).2
      = (process_video (fun _ => Except.ok "content")
          { source_reference := "https://www.youtube.com/watch?v=abc123",
            output_root := "./out", stage_backends := fun _ => "local" } []).2 :=
  have h := c4_idempotent (fun _ => Except.ok "content")
    { source_reference := "https://www.youtube.com/watch?v=abc123",
      output_root := "./out", stage_backends := fun _ => "local" }
    (by decide) (fun _ => ⟨"content", rfl, by decide⟩)
  ⟨h.1, h.2.1⟩

/-! ## Claim C5 -/

/-- C5: the reference `"not-a-url"` is rejected by `validate_video_url`
while a canonical YouTube watch URL is accepted, and for every run context
whose source reference fails validation the run aborts with `InvalidInput`
before any stage: the manifest has no entries, no executor is invoked, and
the store is untouched. `validate_video_url` and `process_video` are
unimplemented stubs in the source, so both are modelled from the spec (the
stub docstring requires acceptance exactly of valid YouTube video URLs). -/
theorem c5_invalid_input :
    validate_video_url "not-a-url" = false
    ∧ validate_video_url "https://www.youtube.com/watch?v=dQw4w9WgXcQ" = true
    ∧ ∀ (oracle : Oracle) (ctx : RunContext) (st : Store),
        validate_video_url ctx.source_reference = false →
        process_video oracle ctx st
          = ({ error := some .InvalidInput, manifest := [], invoked := [] }, st) := by
  refine ⟨by decide, by decide, ?_⟩
  intro oracle ctx st h
  simp [process_video, h]

/-- C5 witness: the spec test vector `"not-a-url"` with an arbitrary
all-succeeding oracle. -/
theorem c5_invalid_input_witness :
    process_video (fun _ => Except.ok "content")
      { source_reference := "not-a-url", output_root := "./out",
        stage_backends := fun _ => "local" } []
      = ({ error := some FailureKind.InvalidInput, manifest := [], invoked := [] }, []) :=
  c5_invalid_input.2.2 (fun _ => Except.ok "content")
    { source_reference := "not-a-url", output_root := "./out",
      stage_backends := fun _ => "local" } [] (by decide)

end YTW
